import Mathlib

/- Shallow embedding of src/zoauth_client.py: class ZOAuth2Client.

   Modelling choices:
   - JSON bodies are association lists from string keys to values; the values
     we need are strings and natural numbers (JVal).  Python dict lookup
     d[k] raising KeyError is modelled with Option and an explicit error.
   - datetime instants are natural numbers; datetime.now() is a parameter
     `now` of each operation (time is frozen during one call).
   - the HTTP layer is an oracle `Env : HttpRequest -> Json` giving the
     parsed body response.json() of each request; each operation returns an
     `Outcome`, recording the Python result (normal value or exception), the
     final state of the object and the list of requests sent, in order.
   - `authorize_header` in the source has a mutable default argument h={};
     since the only key the class ever writes into it is "Authorization",
     the shared default dict always holds exactly that key, so a call
     authorize_header() is modelled as insertion into the empty dict. -/

inductive JVal where
  | str : String → JVal
  | num : Nat → JVal
deriving DecidableEq, Repr

abbrev Json := List (String × JVal)

/-- Python dict lookup on string keys: first binding wins. -/
def lookupKey : List (String × JVal) → String → Option JVal
  | [], _ => none
  | (k₂, v) :: rest, k => if k₂ = k then some v else lookupKey rest k

/-- Python str() of a JSON value, as used by f-string interpolation. -/
def pyStr : JVal → String
  | .str s => s
  | .num n => toString n

/-- Python str() of an optional value; None prints as "None". -/
def pyStrOpt : Option JVal → String
  | none => "None"
  | some v => pyStr v

/-- Python truthiness of the stored access token: None, "" and 0 are falsy. -/
def truthy : Option JVal → Bool
  | none => false
  | some (.str s) => !(s = "")
  | some (.num n) => !(n = 0)

/-- The Python exceptions the embedded code can raise. -/
inductive PyError where
  | valueError : String → PyError
  | keyError : String → PyError
  | typeError : PyError
deriving DecidableEq, Repr

/-- The instance attributes set by ZOAuth2Client.__init__. -/
structure ClientState where
  dc : String
  client_id : JVal
  client_secret : JVal
  refresh_token : JVal
  redirect_uri : String
  access_token : Option JVal
  expires_in : Option JVal
  expires_time : Option Nat
  domain : String
deriving DecidableEq, Repr

inductive Method where
  | get : Method
  | post : Method
deriving DecidableEq, Repr

/-- One outgoing HTTP request, with every keyword argument the source passes
to requests.get / requests.post; an argument not passed is the empty list. -/
structure HttpRequest where
  method : Method
  url : String
  params : List (String × JVal)
  headers : List (String × String)
  data : List (String × JVal)
  files : List (String × JVal)
deriving DecidableEq, Repr

/-- The HTTP oracle: the parsed JSON body each request comes back with. -/
abbrev Env := HttpRequest → Json

/-- Result of running one method: the Python return value or the exception
raised, the state of the object afterwards, and the requests sent. -/
structure Outcome (α : Type) where
  result : Except PyError α
  state : ClientState
  sent : List HttpRequest

/-- ZOAuth2Client.__init__(tokens, domain, dc): raises ValueError unless
client_id, client_secret and refresh_token are all keys of tokens. -/
def init (tokens : List (String × JVal)) (domain : String) (dc : String) :
    Except PyError ClientState :=
  match lookupKey tokens "client_id", lookupKey tokens "client_secret",
        lookupKey tokens "refresh_token" with
  | some cid, some cs, some rt =>
      .ok { dc := dc
            client_id := cid
            client_secret := cs
            refresh_token := rt
            redirect_uri := "https://localhost/"
            access_token := lookupKey tokens "access_token"
            expires_in := none
            expires_time := none
            domain := "https://" ++ domain ++ "." ++ dc }
  | _, _, _ => .error (.valueError "Client ID, secret and refresh token are all required.")

/-- The POST that request_new_token sends: requests.post(url, params=p)
with the fixed accounts URL and the refresh-token grant parameters. -/
def refresh_request (s : ClientState) : HttpRequest :=
  { method := .post
    url := "https://accounts.zoho." ++ s.dc ++ "/oauth/v2/token"
    params := [("refresh_token", s.refresh_token),
               ("client_id", s.client_id),
               ("client_secret", s.client_secret),
               ("redirect_uri", .str s.redirect_uri),
               ("grant_type", .str "refresh_token")]
    headers := []
    data := []
    files := [] }

/-- ZOAuth2Client.request_new_token.  The source assigns
self.access_token = json["access_token"], then
self.expires_in = json["expires_in"], then
self.expires_time = now + timedelta(seconds=self.expires_in); a missing
"expires_in" key raises KeyError after the first assignment, and a
non-numeric one raises TypeError inside timedelta after the second. -/
def request_new_token (env : Env) (now : Nat) (s : ClientState) : Outcome Bool :=
  let req := refresh_request s
  let j := env req
  match lookupKey j "access_token" with
  | none => ⟨.ok false, s, [req]⟩
  | some tok =>
    let s₁ := { s with access_token := some tok }
    match lookupKey j "expires_in" with
    | none => ⟨.error (.keyError "expires_in"), s₁, [req]⟩
    | some ei =>
      let s₂ := { s₁ with expires_in := some ei }
      match ei with
      | .num n => ⟨.ok true, { s₂ with expires_time := some (now + n) }, [req]⟩
      | .str _ => ⟨.error .typeError, s₂, [req]⟩

/-- Python dict update h[k] = v: replace in place, else append. -/
def insertKV : List (String × String) → String → String → List (String × String)
  | [], k, v => [(k, v)]
  | (k₂, v₂) :: rest, k, v =>
      if k₂ = k then (k, v) :: rest else (k₂, v₂) :: insertKV rest k v

/-- ZOAuth2Client.authorize_header: set the Authorization bearer header. -/
def authorize_header (s : ClientState) (h : List (String × String)) :
    List (String × String) :=
  insertKV h "Authorization" ("Bearer " ++ pyStrOpt s.access_token)

/-- ZOAuth2Client.has_expired:
self.expires_time == None or datetime.now() > self.expires_time. -/
def has_expired (now : Nat) (s : ClientState) : Bool :=
  match s.expires_time with
  | none => true
  | some t => decide (now > t)

/-- The GET that test_token sends: note the URL appends self.dc to
self.domain, which already ends in the datacentre. -/
def probe_request (s : ClientState) : HttpRequest :=
  { method := .get
    url := s.domain ++ "." ++ s.dc ++ "/api/v1/users/me"
    params := []
    headers := authorize_header s []
    data := []
    files := [] }

/-- ZOAuth2Client.test_token: probe the user-info endpoint and refresh when
the id field of the response equals "F7003"; a response without an "id" key
raises KeyError. -/
def test_token (env : Env) (now : Nat) (s : ClientState) : Outcome Unit :=
  let req := probe_request s
  let j := env req
  match lookupKey j "id" with
  | none => ⟨.error (.keyError "id"), s, [req]⟩
  | some v =>
    if v = .str "F7003" then
      let o := request_new_token env now s
      ⟨o.result.map (fun _ => ()), o.state, req :: o.sent⟩
    else
      ⟨.ok (), s, [req]⟩

/-- The guard on line 98 of the source:
if self.has_expired() or not self.access_token. -/
def needsRefresh (now : Nat) (s : ClientState) : Bool :=
  has_expired now s || !truthy s.access_token

/-- The request dispatched at lines 104-109 of query, after the headers are
overwritten with authorize_header(): GET when data and files are both
empty, plain POST when only files is empty, multipart POST otherwise. -/
def dispatch_request (s : ClientState) (ep : String) (p : List (String × JVal))
    (d : List (String × JVal)) (file : List (String × JVal)) : HttpRequest :=
  let h₂ := authorize_header s []
  if d.isEmpty && file.isEmpty then
    { method := .get, url := s.domain ++ ep, params := p, headers := h₂,
      data := [], files := [] }
  else if file.isEmpty then
    { method := .post, url := s.domain ++ ep, params := p, headers := h₂,
      data := d, files := [] }
  else
    { method := .post, url := s.domain ++ ep, params := p, headers := h₂,
      data := d, files := file }

/-- ZOAuth2Client.query.  The caller headers h are never read: line 102
reassigns h = self.authorize_header() before dispatch. -/
def query (env : Env) (now : Nat) (s : ClientState) (ep : String)
    (p : List (String × JVal)) (h : List (String × String))
    (d : List (String × JVal)) (file : List (String × JVal)) : Outcome Json :=
  if needsRefresh now s then
    let o := request_new_token env now s
    match o.result with
    | .error e => ⟨.error e, o.state, o.sent⟩
    | .ok true =>
      let req := dispatch_request o.state ep p d file
      ⟨.ok (env req), o.state, o.sent ++ [req]⟩
    | .ok false =>
      ⟨.error (.valueError "Could not obtain Client access token from Zoho."),
       o.state, o.sent⟩
  else
    let req := dispatch_request s ep p d file
    ⟨.ok (env req), s, [req]⟩

/- Concrete fixtures for witnesses and counterexamples. -/

/-- A freshly constructed client with no access token. -/
def s0 : ClientState :=
  { dc := "eu", client_id := .str "cid", client_secret := .str "sec",
    refresh_token := .str "rt", redirect_uri := "https://localhost/",
    access_token := none, expires_in := none, expires_time := none,
    domain := "https://workdrive.zoho.eu" }

/-- A client holding a valid, unexpired access token. -/
def sV : ClientState :=
  { s0 with access_token := some (.str "tok"), expires_time := some 100 }

/-- An environment whose every response is the empty JSON object. -/
def envEmpty : Env := fun _ => []

/-- An environment whose every response carries an access_token but no
expires_in field. -/
def envTokenOnly : Env := fun _ => [("access_token", JVal.str "tok")]

/-- An environment whose every response is a well-formed token grant. -/
def envGood : Env :=
  fun _ => [("access_token", JVal.str "tok2"), ("expires_in", JVal.num 3600)]

/- Helper lemmas shared between the claims. -/

/-- request_new_token sends exactly the refresh POST. -/
theorem request_new_token_sent (env : Env) (now : Nat) (s : ClientState) :
    (request_new_token env now s).sent = [refresh_request s] := by
  rcases hA : lookupKey (env (refresh_request s)) "access_token" with _ | tok
  · simp [request_new_token, hA]
  · rcases hE : lookupKey (env (refresh_request s)) "expires_in" with _ | ei
    · simp [request_new_token, hA, hE]
    · cases ei <;> simp [request_new_token, hA, hE]

/-- request_new_token never touches the domain or datacentre fields. -/
theorem request_new_token_keeps_domain (env : Env) (now : Nat) (s : ClientState) :
    (request_new_token env now s).state.domain = s.domain ∧
    (request_new_token env now s).state.dc = s.dc := by
  rcases hA : lookupKey (env (refresh_request s)) "access_token" with _ | tok
  · simp [request_new_token, hA]
  · rcases hE : lookupKey (env (refresh_request s)) "expires_in" with _ | ei
    · simp [request_new_token, hA, hE]
    · cases ei <;> simp [request_new_token, hA, hE]

/-- When query returns normally, the last request sent is the dispatched
API request, and the returned JSON is the oracle response to it. -/
theorem query_ok_last (env : Env) (now : Nat) (s : ClientState) (ep : String)
    (p : List (String × JVal)) (h : List (String × String))
    (d file : List (String × JVal)) (j : Json)
    (hok : (query env now s ep p h d file).result = .ok j) :
    (query env now s ep p h d file).sent.getLast? =
      some (dispatch_request (query env now s ep p h d file).state ep p d file)
    ∧ j = env (dispatch_request (query env now s ep p h d file).state ep p d file) := by
  by_cases hn : needsRefresh now s = true
  · rcases hr : (request_new_token env now s).result with e | b
    · simp [query, hn, hr] at hok
    · cases b
      · simp [query, hn, hr] at hok
      · simp only [query, hn, if_true, hr] at hok ⊢
        rw [request_new_token_sent]
        refine ⟨rfl, ?_⟩
        exact (Except.ok.injEq _ _ ▸ hok).symm
  · simp only [query, hn, if_false, Bool.false_eq_true] at hok ⊢
    refine ⟨rfl, ?_⟩
    exact (Except.ok.injEq _ _ ▸ hok).symm

/-- The dispatched API request carries exactly the Authorization header. -/
theorem dispatch_request_headers (s : ClientState) (ep : String)
    (p : List (String × JVal)) (d file : List (String × JVal)) :
    (dispatch_request s ep p d file).headers =
      [("Authorization", "Bearer " ++ pyStrOpt s.access_token)] := by
  unfold dispatch_request
  split
  · simp [authorize_header, insertKV]
  · split <;> simp [authorize_header, insertKV]

/-- The dispatched API request targets the stored domain plus endpoint. -/
theorem dispatch_request_url (s : ClientState) (ep : String)
    (p : List (String × JVal)) (d file : List (String × JVal)) :
    (dispatch_request s ep p d file).url = s.domain ++ ep := by
  unfold dispatch_request
  split
  · rfl
  · split <;> rfl

/-- C4: has_expired returns true when the stored expiry timestamp is
unknown, and otherwise exactly when the current time is later than the
stored expiry. -/
theorem C4_has_expired (now : Nat) (s : ClientState) :
    has_expired now s = true ↔
      (s.expires_time = none ∨ ∃ t, s.expires_time = some t ∧ now > t) := by
  rcases h : s.expires_time with _ | t <;> simp [has_expired, h]

/-- C9: when the refresh response JSON lacks an access_token field,
request_new_token returns False and leaves the client state exactly as it
was, every field included. -/
theorem C9_refresh_failure_atomic (env : Env) (now : Nat) (s : ClientState)
    (hmiss : lookupKey (env (refresh_request s)) "access_token" = none) :
    (request_new_token env now s).result = .ok false ∧
    (request_new_token env now s).state = s := by
  simp [request_new_token, hmiss]

theorem C9_witness :
    (request_new_token envEmpty 0 s0).result = .ok false ∧
    (request_new_token envEmpty 0 s0).state = s0 :=
  C9_refresh_failure_atomic envEmpty 0 s0 rfl

/-- C3: query attempts a token refresh if and only if, when it is called,
the stored access token is expired or missing (Python-falsy); with a
usable unexpired token the only request sent is the dispatched API
request, so no refresh happens before dispatch. -/
theorem C3_lazy_refresh (env : Env) (now : Nat) (s : ClientState) (ep : String)
    (p : List (String × JVal)) (h : List (String × String))
    (d file : List (String × JVal)) :
    (needsRefresh now s = true ↔
      (query env now s ep p h d file).sent.head? = some (refresh_request s))
    ∧ (needsRefresh now s = false →
      (query env now s ep p h d file).sent = [dispatch_request s ep p d file]) := by
  have hne : dispatch_request s ep p d file ≠ refresh_request s := by
    intro hEq
    have hHd : (dispatch_request s ep p d file).headers = (refresh_request s).headers :=
      congrArg HttpRequest.headers hEq
    rw [dispatch_request_headers] at hHd
    simp [refresh_request] at hHd
  by_cases hn : needsRefresh now s = true
  · refine ⟨⟨fun _ => ?_, fun _ => hn⟩, fun hfalse => ?_⟩
    · rcases hr : (request_new_token env now s).result with e | b
      · simp [query, hn, hr, request_new_token_sent]
      · cases b <;> simp [query, hn, hr, request_new_token_sent]
    · rw [hn] at hfalse; cases hfalse
  · have hsent : (query env now s ep p h d file).sent =
        [dispatch_request s ep p d file] := by
      simp [query, hn]
    refine ⟨⟨fun htrue => absurd htrue hn, fun hhead => ?_⟩, fun _ => hsent⟩
    rw [hsent] at hhead
    simp at hhead
    exact absurd hhead hne

theorem C3_witness :
    ((query envGood 7 s0 "/e" [] [] [] []).sent.head? = some (refresh_request s0))
    ∧ ((query envEmpty 0 sV "/e" [] [] [] []).sent =
        [dispatch_request sV "/e" [] [] []]) :=
  ⟨(C3_lazy_refresh envGood 7 s0 "/e" [] [] [] []).1.mp (by decide),
   (C3_lazy_refresh envEmpty 0 sV "/e" [] [] [] []).2 (by decide)⟩

/-- C2: whenever query returns normally, the request it dispatched is a GET
when the body d and the files dict are both empty, a plain POST carrying d
when only files is empty, and a multipart POST carrying d and file when
files are supplied. -/
theorem C2_method_dispatch (env : Env) (now : Nat) (s : ClientState) (ep : String)
    (p : List (String × JVal)) (h : List (String × String))
    (d file : List (String × JVal)) (j : Json)
    (hok : (query env now s ep p h d file).result = .ok j) :
    let r := dispatch_request (query env now s ep p h d file).state ep p d file
    (query env now s ep p h d file).sent.getLast? = some r
    ∧ (d.isEmpty = true → file.isEmpty = true →
        r.method = .get ∧ r.data = [] ∧ r.files = [])
    ∧ (d.isEmpty = false → file.isEmpty = true →
        r.method = .post ∧ r.data = d ∧ r.files = [])
    ∧ (file.isEmpty = false →
        r.method = .post ∧ r.data = d ∧ r.files = file) := by
  refine ⟨(query_ok_last env now s ep p h d file j hok).1, ?_, ?_, ?_⟩
  · intro h₁ h₂
    simp [dispatch_request, h₁, h₂]
  · intro h₁ h₂
    simp [dispatch_request, h₁, h₂]
  · intro h₂
    have h₃ : ¬((d.isEmpty && file.isEmpty) = true) := by simp [h₂]
    simp [dispatch_request, h₃, h₂]

theorem C2_witness :
    ((query envEmpty 0 sV "/e" [] [] [] []).sent.getLast? =
        some (dispatch_request (query envEmpty 0 sV "/e" [] [] [] []).state "/e" [] [] [])
      ∧ (dispatch_request (query envEmpty 0 sV "/e" [] [] [] []).state "/e" [] [] []).method = .get)
    ∧ (dispatch_request (query envEmpty 0 sV "/p" [] [] [("k", .str "v")] []).state
        "/p" [] [("k", .str "v")] []).method = .post
    ∧ (dispatch_request (query envEmpty 0 sV "/m" [] [] [] [("f", .str "v")]).state
        "/m" [] [] [("f", .str "v")]).files = [("f", .str "v")] := by
  have h₁ := C2_method_dispatch envEmpty 0 sV "/e" [] [] [] []
      (envEmpty (dispatch_request sV "/e" [] [] [])) rfl
  have h₂ := C2_method_dispatch envEmpty 0 sV "/p" [] [] [("k", .str "v")] []
      (envEmpty (dispatch_request sV "/p" [] [("k", .str "v")] [])) rfl
  have h₃ := C2_method_dispatch envEmpty 0 sV "/m" [] [] [] [("f", .str "v")]
      (envEmpty (dispatch_request sV "/m" [] [] [("f", .str "v")])) rfl
  exact ⟨⟨h₁.1, (h₁.2.1 rfl rfl).1⟩, (h₂.2.2.1 rfl rfl).1, (h₃.2.2.2 rfl).2.2⟩

/-- query leaves the configured domain untouched, refresh or not. -/
theorem query_keeps_domain (env : Env) (now : Nat) (s : ClientState) (ep : String)
    (p : List (String × JVal)) (h : List (String × String))
    (d file : List (String × JVal)) :
    (query env now s ep p h d file).state.domain = s.domain := by
  by_cases hn : needsRefresh now s = true
  · rcases hr : (request_new_token env now s).result with e | b
    · simpa [query, hn, hr] using (request_new_token_keeps_domain env now s).1
    · cases b <;> simpa [query, hn, hr] using (request_new_token_keeps_domain env now s).1
  · simp [query, hn]

/-- C1 (amended): when the token is expired or missing and request_new_token
returns False, query raises ValueError; when request_new_token raises, that
exception propagates out of query unchanged; in every remaining case query
returns the parsed JSON of the dispatched request, with no status-code
validation. -/
theorem C1_error_behaviour (env : Env) (now : Nat) (s : ClientState) (ep : String)
    (p : List (String × JVal)) (h : List (String × String))
    (d file : List (String × JVal)) :
    (needsRefresh now s = true →
      (request_new_token env now s).result = .ok false →
      (query env now s ep p h d file).result =
        .error (.valueError "Could not obtain Client access token from Zoho."))
    ∧ (∀ e, needsRefresh now s = true →
        (request_new_token env now s).result = .error e →
        (query env now s ep p h d file).result = .error e)
    ∧ ((needsRefresh now s = false ∨ (request_new_token env now s).result = .ok true) →
        (query env now s ep p h d file).result =
          .ok (env (dispatch_request (query env now s ep p h d file).state ep p d file))) := by
  refine ⟨fun hn hr => by simp [query, hn, hr],
          fun e hn hr => by simp [query, hn, hr], ?_⟩
  intro hc
  by_cases hn : needsRefresh now s = true
  · rcases hc with hc | hr
    · rw [hn] at hc; cases hc
    · simp [query, hn, hr]
  · simp [query, hn]

theorem C1_witness :
    (query envEmpty 0 s0 "/x" [] [] [] []).result =
      .error (.valueError "Could not obtain Client access token from Zoho.")
    ∧ (query envEmpty 0 sV "/e" [] [] [] []).result =
      .ok (envEmpty (dispatch_request
        (query envEmpty 0 sV "/e" [] [] [] []).state "/e" [] [] [])) :=
  ⟨(C1_error_behaviour envEmpty 0 s0 "/x" [] [] [] []).1 (by decide) rfl,
   (C1_error_behaviour envEmpty 0 sV "/e" [] [] [] []).2.2 (Or.inl (by decide))⟩

/-- C1 fails as stated: with an expired token, against a refresh response
holding an access_token but no expires_in, query raises KeyError, which is
neither the ValueError the claim allows nor a returned JSON body. -/
theorem C1_counterexample :
    (query envTokenOnly 0 s0 "/x" [] [] [] []).result = .error (.keyError "expires_in")
    ∧ (∀ m, (query envTokenOnly 0 s0 "/x" [] [] [] []).result ≠ .error (.valueError m))
    ∧ (∀ j, (query envTokenOnly 0 s0 "/x" [] [] [] []).result ≠ .ok j) := by
  have h₀ : (query envTokenOnly 0 s0 "/x" [] [] [] []).result =
      .error (.keyError "expires_in") := rfl
  refine ⟨h₀, fun m hm => ?_, fun j hj => ?_⟩
  · rw [h₀] at hm; simp at hm
  · rw [h₀] at hj; simp at hj

/-- C5 fails as stated: a refresh response holding an access_token but no
expires_in makes request_new_token raise KeyError instead of returning
True, even though the response JSON does contain an access_token field. -/
theorem C5_counterexample :
    lookupKey (envTokenOnly (refresh_request s0)) "access_token" = some (.str "tok")
    ∧ (request_new_token envTokenOnly 0 s0).result = .error (.keyError "expires_in")
    ∧ (∀ b, (request_new_token envTokenOnly 0 s0).result ≠ .ok b) := by
  have h₀ : (request_new_token envTokenOnly 0 s0).result =
      .error (.keyError "expires_in") := rfl
  refine ⟨rfl, h₀, fun b hb => ?_⟩
  rw [h₀] at hb; simp at hb

/-- C5 (amended): request_new_token sends exactly one POST, to the fixed
accounts token endpoint, with grant_type refresh_token and the stored
refresh token and client credentials among its parameters; it returns True
and stores the new access token and an expiry of now plus the response
expires_in exactly when the response JSON has both an access_token field
and a numeric expires_in field; it returns False when access_token is
absent, and raises when access_token is present but expires_in is missing
or non-numeric. -/
theorem C5_request_new_token (env : Env) (now : Nat) (s : ClientState) :
    (request_new_token env now s).sent = [refresh_request s]
    ∧ (refresh_request s).method = .post
    ∧ (refresh_request s).url = "https://accounts.zoho." ++ s.dc ++ "/oauth/v2/token"
    ∧ lookupKey (refresh_request s).params "grant_type" = some (.str "refresh_token")
    ∧ lookupKey (refresh_request s).params "refresh_token" = some s.refresh_token
    ∧ lookupKey (refresh_request s).params "client_id" = some s.client_id
    ∧ lookupKey (refresh_request s).params "client_secret" = some s.client_secret
    ∧ ((request_new_token env now s).result = .ok true ↔
        ∃ tok n, lookupKey (env (refresh_request s)) "access_token" = some tok
          ∧ lookupKey (env (refresh_request s)) "expires_in" = some (.num n))
    ∧ (∀ tok n, lookupKey (env (refresh_request s)) "access_token" = some tok →
        lookupKey (env (refresh_request s)) "expires_in" = some (.num n) →
        (request_new_token env now s).state.access_token = some tok
        ∧ (request_new_token env now s).state.expires_time = some (now + n))
    ∧ (∀ tok, lookupKey (env (refresh_request s)) "access_token" = some tok →
        lookupKey (env (refresh_request s)) "expires_in" = none →
        (request_new_token env now s).result = .error (.keyError "expires_in"))
    ∧ (∀ tok a, lookupKey (env (refresh_request s)) "access_token" = some tok →
        lookupKey (env (refresh_request s)) "expires_in" = some (.str a) →
        (request_new_token env now s).result = .error .typeError)
    ∧ (lookupKey (env (refresh_request s)) "access_token" = none →
        (request_new_token env now s).result = .ok false) := by
  have hiff : (request_new_token env now s).result = .ok true ↔
      ∃ tok n, lookupKey (env (refresh_request s)) "access_token" = some tok
        ∧ lookupKey (env (refresh_request s)) "expires_in" = some (.num n) := by
    rcases hA : lookupKey (env (refresh_request s)) "access_token" with _ | tok
    · simp [request_new_token, hA]
    · rcases hE : lookupKey (env (refresh_request s)) "expires_in" with _ | ei
      · simp [request_new_token, hA, hE]
      · cases ei <;> simp [request_new_token, hA, hE]
  have hstore : ∀ tok n,
      lookupKey (env (refresh_request s)) "access_token" = some tok →
      lookupKey (env (refresh_request s)) "expires_in" = some (.num n) →
      (request_new_token env now s).state.access_token = some tok
      ∧ (request_new_token env now s).state.expires_time = some (now + n) := by
    intro tok n hA hE
    simp [request_new_token, hA, hE]
  have hkey : ∀ tok, lookupKey (env (refresh_request s)) "access_token" = some tok →
      lookupKey (env (refresh_request s)) "expires_in" = none →
      (request_new_token env now s).result = .error (.keyError "expires_in") := by
    intro tok hA hE
    simp [request_new_token, hA, hE]
  have htype : ∀ tok a, lookupKey (env (refresh_request s)) "access_token" = some tok →
      lookupKey (env (refresh_request s)) "expires_in" = some (.str a) →
      (request_new_token env now s).result = .error .typeError := by
    intro tok a hA hE
    simp [request_new_token, hA, hE]
  have hfail : lookupKey (env (refresh_request s)) "access_token" = none →
      (request_new_token env now s).result = .ok false := by
    intro hA
    simp [request_new_token, hA]
  exact ⟨request_new_token_sent env now s, rfl, rfl,
    by simp [refresh_request, lookupKey],
    by simp [refresh_request, lookupKey],
    by simp [refresh_request, lookupKey],
    by simp [refresh_request, lookupKey],
    hiff, hstore, hkey, htype, hfail⟩

/-- An environment whose every response has an access_token and a
non-numeric expires_in value. -/
def envBadExpiry : Env :=
  fun _ => [("access_token", JVal.str "tokX"), ("expires_in", JVal.str "soon")]

theorem C5_witness :
    (request_new_token envGood 5 s0).result = .ok true
    ∧ (request_new_token envGood 5 s0).state.access_token = some (.str "tok2")
    ∧ (request_new_token envGood 5 s0).state.expires_time = some 3605
    ∧ (request_new_token envTokenOnly 0 s0).result = .error (.keyError "expires_in")
    ∧ (request_new_token envBadExpiry 0 s0).result = .error .typeError
    ∧ (request_new_token envEmpty 0 s0).result = .ok false := by
  have h := C5_request_new_token envGood 5 s0
  have h₂ := h.2.2.2.2.2.2.2.2.1 (.str "tok2") 3600 rfl rfl
  have hk := (C5_request_new_token envTokenOnly 0 s0).2.2.2.2.2.2.2.2.2.1
      (.str "tok") rfl rfl
  have ht := (C5_request_new_token envBadExpiry 0 s0).2.2.2.2.2.2.2.2.2.2.1
      (.str "tokX") "soon" rfl rfl
  have hf := (C5_request_new_token envEmpty 0 s0).2.2.2.2.2.2.2.2.2.2.2 rfl
  exact ⟨h.2.2.2.2.2.2.2.1.mpr ⟨.str "tok2", 3600, rfl, rfl⟩, h₂.1, h₂.2, hk, ht, hf⟩

/-- C6 fails as stated: with an expired token, the first request query
sends is the refresh POST, which targets the fixed accounts endpoint
rather than the configured domain and carries no Authorization header. -/
theorem C6_counterexample :
    (query envGood 0 s0 "/x" [] [] [] []).sent.head? = some (refresh_request s0)
    ∧ (refresh_request s0).url = "https://accounts.zoho.eu/oauth/v2/token"
    ∧ (refresh_request s0).url ≠ s0.domain ++ "/x"
    ∧ (refresh_request s0).headers = [] := by
  refine ⟨rfl, rfl, ?_, rfl⟩
  decide

/-- C6 (amended): every API request that query dispatches targets the
configured domain concatenated with the endpoint and carries exactly the
Authorization bearer header of the current access token; a refresh POST
sent before it targets the fixed accounts endpoint with no Authorization
header. -/
theorem C6_dispatch_target (env : Env) (now : Nat) (s : ClientState) (ep : String)
    (p : List (String × JVal)) (h : List (String × String))
    (d file : List (String × JVal)) (j : Json)
    (hok : (query env now s ep p h d file).result = .ok j) :
    (query env now s ep p h d file).sent.getLast? =
      some (dispatch_request (query env now s ep p h d file).state ep p d file)
    ∧ (dispatch_request (query env now s ep p h d file).state ep p d file).url =
        s.domain ++ ep
    ∧ (dispatch_request (query env now s ep p h d file).state ep p d file).headers =
        [("Authorization", "Bearer " ++
          pyStrOpt (query env now s ep p h d file).state.access_token)]
    ∧ (refresh_request s).url = "https://accounts.zoho." ++ s.dc ++ "/oauth/v2/token"
    ∧ (refresh_request s).headers = [] := by
  refine ⟨(query_ok_last env now s ep p h d file j hok).1, ?_,
    dispatch_request_headers _ _ _ _ _, rfl, rfl⟩
  rw [dispatch_request_url, query_keeps_domain]

theorem C6_witness :
    (query envEmpty 0 sV "/e" [] [] [] []).sent.getLast? =
      some (dispatch_request (query envEmpty 0 sV "/e" [] [] [] []).state "/e" [] [] [])
    ∧ (dispatch_request (query envEmpty 0 sV "/e" [] [] [] []).state "/e" [] [] []).url =
      sV.domain ++ "/e" := by
  have h := C6_dispatch_target envEmpty 0 sV "/e" [] [] [] []
      (envEmpty (dispatch_request sV "/e" [] [] [])) rfl
  exact ⟨h.1, h.2.1⟩

/-- An environment answering GET probes with the WorkDrive error sentinel
and POST requests with a well-formed token grant. -/
def envF7 : Env := fun r =>
  if r.method = .get then [("id", JVal.str "F7003")]
  else [("access_token", JVal.str "tok3"), ("expires_in", JVal.num 60)]

/-- C7: test_token sends a GET probe to the WorkDrive user-info URL and
calls request_new_token exactly when the id field of the probe response
equals the sentinel "F7003"; for any other response the client state is
left unchanged and only the probe is sent. -/
theorem C7_test_token (env : Env) (now : Nat) (s : ClientState) :
    (probe_request s).method = .get
    ∧ (probe_request s).url = s.domain ++ "." ++ s.dc ++ "/api/v1/users/me"
    ∧ (test_token env now s).sent.head? = some (probe_request s)
    ∧ (lookupKey (env (probe_request s)) "id" = some (.str "F7003") →
        (test_token env now s).sent = [probe_request s, refresh_request s]
        ∧ (test_token env now s).state = (request_new_token env now s).state)
    ∧ (lookupKey (env (probe_request s)) "id" ≠ some (.str "F7003") →
        (test_token env now s).sent = [probe_request s]
        ∧ (test_token env now s).state = s) := by
  refine ⟨rfl, rfl, ?_, ?_, ?_⟩
  · rcases hI : lookupKey (env (probe_request s)) "id" with _ | v
    · simp [test_token, hI]
    · by_cases hv : v = .str "F7003" <;> simp [test_token, hI, hv]
  · intro hI
    simp [test_token, hI, request_new_token_sent]
  · intro hI
    rcases hJ : lookupKey (env (probe_request s)) "id" with _ | v
    · simp [test_token, hJ]
    · have hv : v ≠ .str "F7003" := by
        intro hv
        rw [hv] at hJ
        exact hI hJ
      simp [test_token, hJ, hv]

theorem C7_witness :
    ((test_token envF7 2 sV).sent = [probe_request sV, refresh_request sV]
      ∧ (test_token envF7 2 sV).state = (request_new_token envF7 2 sV).state)
    ∧ ((test_token envEmpty 0 sV).sent = [probe_request sV]
      ∧ (test_token envEmpty 0 sV).state = sV) :=
  ⟨(C7_test_token envF7 2 sV).2.2.2.1 rfl,
   (C7_test_token envEmpty 0 sV).2.2.2.2 (by decide)⟩

/-- C8: the caller-supplied headers dict is discarded: query is insensitive
to its h argument, and whenever it dispatches an API request that request
carries exactly the Authorization bearer header set by authorize_header. -/
theorem C8_headers_discarded (env : Env) (now : Nat) (s : ClientState) (ep : String)
    (p : List (String × JVal)) (h₁ h₂ : List (String × String))
    (d file : List (String × JVal)) :
    query env now s ep p h₁ d file = query env now s ep p h₂ d file
    ∧ (∀ j, (query env now s ep p h₁ d file).result = .ok j →
        (query env now s ep p h₁ d file).sent.getLast? =
          some (dispatch_request (query env now s ep p h₁ d file).state ep p d file)
        ∧ (dispatch_request (query env now s ep p h₁ d file).state ep p d file).headers =
          [("Authorization",
            "Bearer " ++ pyStrOpt (query env now s ep p h₁ d file).state.access_token)]) :=
  ⟨rfl, fun j hok => ⟨(query_ok_last env now s ep p h₁ d file j hok).1,
    dispatch_request_headers _ _ _ _ _⟩⟩

theorem C8_witness :
    query envEmpty 0 sV "/e" [] [("X-Custom", "1")] [] [] =
      query envEmpty 0 sV "/e" [] [("Other", "2")] [] []
    ∧ (dispatch_request (query envEmpty 0 sV "/e" [] [("X-Custom", "1")] [] []).state
        "/e" [] [] []).headers = [("Authorization", "Bearer tok")] := by
  have h := C8_headers_discarded envEmpty 0 sV "/e" [] [("X-Custom", "1")]
      [("Other", "2")] [] []
  refine ⟨h.1, ?_⟩
  have h₂ := (h.2 (envEmpty (dispatch_request sV "/e" [] [] [])) rfl).2
  rw [h₂]
  rfl

/-- C10: the URL test_token probes repeats the datacentre suffix, since the
stored domain already ends in it and test_token appends self.dc again; it
therefore always differs from the configured domain plus the same path,
which query-style requests would use. -/
theorem C10_probe_url (tokens : List (String × JVal)) (domain dc : String)
    (s : ClientState) (hinit : init tokens domain dc = .ok s) :
    (probe_request s).url =
      "https://" ++ domain ++ "." ++ dc ++ "." ++ dc ++ "/api/v1/users/me"
    ∧ (probe_request s).url ≠ s.domain ++ "/api/v1/users/me" := by
  have h₄ : s.dc = dc ∧ s.domain = "https://" ++ domain ++ "." ++ dc := by
    unfold init at hinit
    rcases h₁ : lookupKey tokens "client_id" with _ | cid <;>
      rcases h₂ : lookupKey tokens "client_secret" with _ | cs <;>
        rcases h₃ : lookupKey tokens "refresh_token" with _ | rt <;>
          rw [h₁, h₂, h₃] at hinit <;>
            first
              | exact (Except.noConfusion hinit)
              | exact ⟨(congrArg ClientState.dc (Except.ok.inj hinit)).symm,
                       (congrArg ClientState.domain (Except.ok.inj hinit)).symm⟩
  have hurl : (probe_request s).url =
      s.domain ++ "." ++ s.dc ++ "/api/v1/users/me" := rfl
  constructor
  · rw [hurl, h₄.1, h₄.2]
  · rw [hurl]
    intro heq
    have hlen := congrArg String.length heq
    simp only [String.length_append] at hlen
    have hdot : (".").length = 1 := rfl
    omega

theorem C10_witness :
    (probe_request s0).url = "https://workdrive.zoho.eu.eu/api/v1/users/me"
    ∧ (probe_request s0).url ≠ s0.domain ++ "/api/v1/users/me" := by
  have h := C10_probe_url
      [("client_id", JVal.str "cid"), ("client_secret", JVal.str "sec"),
       ("refresh_token", JVal.str "rt")]
      "workdrive.zoho" "eu" s0 rfl
  exact ⟨h.1.trans (by rfl), h.2⟩
